import Mathlib

/-!
Verification development for the Aquasense ESP32 water-quality monitor
(`src/main.cpp`). The measurement pipeline, menu state machine, power
manager and upload scheduler are embedded shallowly: floating-point
sensor arithmetic is modelled over `ℚ`, millisecond timestamps over `ℕ`,
and the hardware environment (ADC readings, probe reading, Wi-Fi and
transport status, button edges) is passed explicitly as inputs to each
loop tick.
-/

namespace Aquasense

/-- Calibration coefficients (globals `ph_slope` .. `tds_k` in `main.cpp`). -/
structure Calib where
  ph_slope : ℚ
  ph_intercept : ℚ
  turb_slope : ℚ
  turb_intercept : ℚ
  tds_k : ℚ
deriving Repr, DecidableEq

/-- The hard-coded defaults of the calibration globals:
`-1.5, 7.0, -50.0, 100.0, 0.5`. -/
def defaultCalib : Calib :=
  { ph_slope := -3/2, ph_intercept := 7, turb_slope := -50,
    turb_intercept := 100, tds_k := 1/2 }

/-- Rolling-average state of one channel: the 3-slot buffer (`phBuf`,
`turbBuf` or `tdsBuf`) and its write cursor (`phPtr`, `turbPtr`, `tdsPtr`). -/
structure SensorBuf where
  b0 : ℚ
  b1 : ℚ
  b2 : ℚ
  ptr : ℕ
deriving Repr, DecidableEq

/-- The zero-initialised buffer state of the C globals at boot. -/
def SensorBuf.init : SensorBuf := ⟨0, 0, 0, 0⟩

/-- `buf[*ptr] = v; *ptr = (*ptr + 1) % 3;` from `readVoltage`.
The cursor is reduced mod 3 when indexing, matching the C invariant that
the cursor always lies in `[0, 3)`. -/
def writeBuf (s : SensorBuf) (v : ℚ) : SensorBuf :=
  match s.ptr % 3 with
  | 0 => { s with b0 := v, ptr := (s.ptr + 1) % 3 }
  | 1 => { s with b1 := v, ptr := (s.ptr + 1) % 3 }
  | _ => { s with b2 := v, ptr := (s.ptr + 1) % 3 }

/-- Arduino `constrain(amt, low, high)`. -/
def constrain (x lo hi : ℚ) : ℚ :=
  if x < lo then lo else if hi < x then hi else x

/-- `readVoltage(pin, buf, ptr)` from `main.cpp`: an ADC value at either
rail (`0` or `4095`) yields the `-1.0` sentinel and leaves the buffer
untouched; otherwise the converted voltage `adc * (3.3 / 4095.0)` is
pushed and the mean of the three slots is returned, together with the
updated buffer state. -/
def readVoltage (adc : ℕ) (s : SensorBuf) : ℚ × SensorBuf :=
  if adc = 0 ∨ adc = 4095 then (-1, s)
  else
    let v : ℚ := (adc : ℚ) * (33/10 / 4095)
    let s2 := writeBuf s v
    ((s2.b0 + s2.b1 + s2.b2) / 3, s2)

/-- `getTemp()` from `main.cpp`, as a pure function of the raw probe
reading: the DS18B20 sentinels `-127.00` and `85.00` map to the default
`25.0` degrees C, every other reading passes through. -/
def getTemp (t : ℚ) : ℚ :=
  if t = -127 ∨ t = 85 then 25 else t

/-- `getPH()` from `main.cpp`: sample the pH channel, bail out with the
`-1.0` sentinel on a rail fault, otherwise apply the linear calibration,
the `0.0198 * (T - 25)` temperature compensation, and clamp to `[0, 14]`. -/
def getPH (adc : ℕ) (tRaw : ℚ) (c : Calib) (s : SensorBuf) : ℚ × SensorBuf :=
  let r := readVoltage adc s
  if r.1 < 0 then (-1, r.2)
  else
    let ph := c.ph_slope * r.1 + c.ph_intercept
    let t := getTemp tRaw
    (constrain (ph + 198/10000 * (t - 25)) 0 14, r.2)

/-- `getTurbidity()` from `main.cpp`: linear calibration then clamp to
`[0, 150]`; `-1.0` sentinel on a rail fault. -/
def getTurbidity (adc : ℕ) (c : Calib) (s : SensorBuf) : ℚ × SensorBuf :=
  let r := readVoltage adc s
  if r.1 < 0 then (-1, r.2)
  else (constrain (c.turb_slope * r.1 + c.turb_intercept) 0 150, r.2)

/-- `getTDS()` from `main.cpp`: `v * tds_k * (1 + 0.02 * (T - 25))`, not
clamped; `-1.0` sentinel on a rail fault. -/
def getTDS (adc : ℕ) (tRaw : ℚ) (c : Calib) (s : SensorBuf) : ℚ × SensorBuf :=
  let r := readVoltage adc s
  if r.1 < 0 then (-1, r.2)
  else
    let t := getTemp tRaw
    (r.1 * c.tds_k * (1 + 2/100 * (t - 25)), r.2)

/-- `getEC()` from `main.cpp`: derived from a fresh TDS sample as
`tds * 2.0`, with the `-1.0` sentinel propagated when TDS is negative. -/
def getEC (adc : ℕ) (tRaw : ℚ) (c : Calib) (s : SensorBuf) : ℚ × SensorBuf :=
  let r := getTDS adc tRaw c s
  if r.1 < 0 then (-1, r.2) else (r.1 * 2, r.2)

/-- The three rolling-buffer globals together. -/
structure Buffers where
  ph : SensorBuf
  turb : SensorBuf
  tds : SensorBuf
deriving Repr, DecidableEq

/-- Zero-initialised buffers at boot. -/
def Buffers.init : Buffers := ⟨SensorBuf.init, SensorBuf.init, SensorBuf.init⟩

/-- Hardware/collaborator inputs consumed during one tick: connectivity
and transport status, the fresh ADC sample available on each analog pin,
the raw probe reading, and whether the database write succeeds when
attempted. -/
structure Env where
  wifiConnected : Bool
  firebaseReady : Bool
  phAdc : ℕ
  turbAdc : ℕ
  tdsAdc : ℕ
  tempRaw : ℚ
  writeOk : Bool
deriving Repr, DecidableEq

/-- The four observable ways `sendToFirebase()` can finish. -/
inductive SendOutcome where
  | skippedNotReady
  | skippedInvalid
  | writeSuccess
  | writeFailed
deriving Repr, DecidableEq

/-- `sendToFirebase()` from `main.cpp`: bail out before any sensor read
when Wi-Fi or Firebase is not ready; otherwise read temperature, pH,
turbidity and TDS (mutating the three rolling buffers), derive
`ec = tds * 2.0` (or `-1.0`), skip the write when any of the five values
is negative, and otherwise report the transport result. -/
def sendToFirebase (e : Env) (c : Calib) (b : Buffers) : SendOutcome × Buffers :=
  if e.wifiConnected = false ∨ e.firebaseReady = false then
    (SendOutcome.skippedNotReady, b)
  else
    let temperature := getTemp e.tempRaw
    let ph := getPH e.phAdc e.tempRaw c b.ph
    let turbidity := getTurbidity e.turbAdc c b.turb
    let tds := getTDS e.tdsAdc e.tempRaw c b.tds
    let ec : ℚ := if tds.1 < 0 then -1 else tds.1 * 2
    let b2 : Buffers := ⟨ph.2, turbidity.2, tds.2⟩
    if temperature < 0 ∨ ph.1 < 0 ∨ turbidity.1 < 0 ∨ tds.1 < 0 ∨ ec < 0 then
      (SendOutcome.skippedInvalid, b2)
    else if e.writeOk then (SendOutcome.writeSuccess, b2)
    else (SendOutcome.writeFailed, b2)

/-- `menuItemsCount` in `main.cpp`. -/
def menuItemsCount : ℕ := 7

/-- The `Up` branch of `handleMenu`:
`currentMenuItem = (currentMenuItem > 0) ? (currentMenuItem - 1) : (menuItemsCount - 1)`. -/
def menuUp (i : ℕ) : ℕ :=
  if i > 0 then i - 1 else menuItemsCount - 1

/-- The `Down` branch of `handleMenu`:
`currentMenuItem = (currentMenuItem < menuItemsCount - 1) ? (currentMenuItem + 1) : 0`. -/
def menuDown (i : ℕ) : ℕ :=
  if i < menuItemsCount - 1 then i + 1 else 0

/-- Which (at most one) button reads LOW this tick, in the priority
order `handleMenu` checks them. -/
inductive Button where
  | up
  | down
  | select
  | back
  | idle
deriving Repr, DecidableEq

/-- Messages the firmware writes to the LCD, abstracted from the raw
16x2 text. -/
inductive Display where
  | menu (idx : ℕ)
  | valueShown (name : String) (v : ℚ)
  | errorShown (name : String)
  | powerSaveMsg (isOn : Bool)
  | sendingData
  | dataSent
  | sleeping
deriving Repr, DecidableEq

/-- The mutable firmware globals relevant to the control loop. -/
structure SysState where
  currentMenuItem : ℕ
  powerSaveMode : Bool
  lastButtonPress : ℕ
  lastRead : ℕ
  lastLCDActivity : ℕ
  lcdBacklightOn : Bool
  bufs : Buffers
deriving Repr, DecidableEq

/-- Global state at boot (`currentMenuItem = 0`, timers 0, power save
off, backlight on, buffers zeroed). -/
def SysState.init : SysState :=
  { currentMenuItem := 0, powerSaveMode := false, lastButtonPress := 0,
    lastRead := 0, lastLCDActivity := 0, lcdBacklightOn := true,
    bufs := Buffers.init }

/-- `wakeLCD()` from `main.cpp`: backlight on, activity timestamp
refreshed. Called by `displayMenu` and `displayValue`. -/
def wakeLCD (now : ℕ) (st : SysState) : SysState :=
  { st with lcdBacklightOn := true, lastLCDActivity := now }

/-- `displayValue(name, val, unit)`: `Error` is shown when the value is
negative, otherwise the value itself. -/
def displayValue (name : String) (v : ℚ) : Display :=
  if v < 0 then Display.errorShown name else Display.valueShown name v

/-- What one call of `handleMenu` produced: the new globals, the LCD
writes it performed in order, and the manual `sendToFirebase` outcome
when menu item 6 was dispatched. -/
structure MenuResult where
  st : SysState
  displays : List Display
  send : Option SendOutcome
deriving Repr, DecidableEq

/-- The `BTN_SELECT` dispatch (`switch (currentMenuItem)`) of
`handleMenu`: items 0-4 sample and display one reading, item 5 toggles
power-save, item 6 runs the manual send path and always prints
`Data sent!` before returning to the menu. `lastButtonPress` is set
because `buttonPressed` is true on this path. -/
def handleSelect (now : ℕ) (e : Env) (c : Calib) (st : SysState) : MenuResult :=
  match st.currentMenuItem with
  | 0 =>
    let st2 := { wakeLCD now st with lastButtonPress := now }
    ⟨st2, [displayValue "Temp" (getTemp e.tempRaw)], Option.none⟩
  | 1 =>
    let r := getPH e.phAdc e.tempRaw c st.bufs.ph
    let st2 := { wakeLCD now { st with bufs := { st.bufs with ph := r.2 } } with
                 lastButtonPress := now }
    ⟨st2, [displayValue "pH" r.1], Option.none⟩
  | 2 =>
    let r := getTurbidity e.turbAdc c st.bufs.turb
    let st2 := { wakeLCD now { st with bufs := { st.bufs with turb := r.2 } } with
                 lastButtonPress := now }
    ⟨st2, [displayValue "Turbidity" r.1], Option.none⟩
  | 3 =>
    let r := getTDS e.tdsAdc e.tempRaw c st.bufs.tds
    let st2 := { wakeLCD now { st with bufs := { st.bufs with tds := r.2 } } with
                 lastButtonPress := now }
    ⟨st2, [displayValue "TDS" r.1], Option.none⟩
  | 4 =>
    let r := getEC e.tdsAdc e.tempRaw c st.bufs.tds
    let st2 := { wakeLCD now { st with bufs := { st.bufs with tds := r.2 } } with
                 lastButtonPress := now }
    ⟨st2, [displayValue "EC" r.1], Option.none⟩
  | 5 =>
    let st2 := { wakeLCD now { st with powerSaveMode := !st.powerSaveMode } with
                 lastButtonPress := now }
    ⟨st2, [Display.powerSaveMsg (!st.powerSaveMode), Display.menu st.currentMenuItem],
     Option.none⟩
  | 6 =>
    let r := sendToFirebase e c st.bufs
    let st2 := { wakeLCD now { st with bufs := r.2 } with lastButtonPress := now }
    ⟨st2, [Display.sendingData, Display.dataSent, Display.menu st.currentMenuItem],
     Option.some r.1⟩
  | _ =>
    ⟨{ st with lastButtonPress := now }, [], Option.none⟩

/-- `handleMenu()` from `main.cpp`: edges within 200 ms of the last
accepted press are ignored; `Up`/`Down` move through the menu
circularly; `Select` dispatches by item; `Back` redisplays the menu.
Every accepted press refreshes `lastButtonPress`. -/
def handleMenu (now : ℕ) (btn : Button) (e : Env) (c : Calib) (st : SysState) :
    MenuResult :=
  if now - st.lastButtonPress < 200 then ⟨st, [], Option.none⟩
  else
    match btn with
    | Button.up =>
      let st2 := { wakeLCD now { st with currentMenuItem := menuUp st.currentMenuItem }
                   with lastButtonPress := now }
      ⟨st2, [Display.menu (menuUp st.currentMenuItem)], Option.none⟩
    | Button.down =>
      let st2 := { wakeLCD now { st with currentMenuItem := menuDown st.currentMenuItem }
                   with lastButtonPress := now }
      ⟨st2, [Display.menu (menuDown st.currentMenuItem)], Option.none⟩
    | Button.select => handleSelect now e c st
    | Button.back =>
      let st2 := { wakeLCD now st with lastButtonPress := now }
      ⟨st2, [Display.menu st.currentMenuItem], Option.none⟩
    | Button.idle => ⟨st, [], Option.none⟩

/-- The backlight branch of `managePower()`: turn the backlight off
after more than 30 s without LCD activity. -/
def dimBacklight (now : ℕ) (st : SysState) : SysState :=
  if st.lcdBacklightOn ∧ 30000 < now - st.lastLCDActivity then
    { st with lcdBacklightOn := false }
  else st

/-- `managePower()` from `main.cpp`: only in power-save mode, dim the
backlight after 30 s without LCD activity, and report that deep sleep is
entered when more than 300 s elapsed since `lastRead`. -/
def managePower (now : ℕ) (st : SysState) : SysState × Bool :=
  if st.powerSaveMode then
    if 300000 < now - (dimBacklight now st).lastRead then (dimBacklight now st, true)
    else (dimBacklight now st, false)
  else (st, false)

/-- One iteration of `loop()`: the new globals, the LCD writes, whether
deep sleep was entered (halting the tick), and the outcomes of the
automatic and the manual send attempt, when each occurred. -/
structure LoopResult where
  st : SysState
  displays : List Display
  deepSleep : Bool
  auto : Option SendOutcome
  manual : Option SendOutcome
deriving Repr, DecidableEq

/-- The trailing scheduler block of `loop()`:
`if (millis() - lastRead >= 15000) { lastRead = millis(); if (!powerSaveMode) sendToFirebase(); }`. -/
def schedulerStep (now : ℕ) (e : Env) (c : Calib) (st : SysState) :
    SysState × Option SendOutcome :=
  if 15000 ≤ now - st.lastRead then
    let st3 := { st with lastRead := now }
    if st3.powerSaveMode then (st3, Option.none)
    else
      let r := sendToFirebase e c st3.bufs
      ({ st3 with bufs := r.2 }, Option.some r.1)
  else (st, Option.none)

/-- `loop()` from `main.cpp`: `handleMenu`, then `managePower` (deep
sleep halts the tick), then the 15 s scheduler block. -/
def loopStep (now : ℕ) (btn : Button) (e : Env) (c : Calib) (st : SysState) :
    LoopResult :=
  let m := handleMenu now btn e c st
  let p := managePower now m.st
  if p.2 then
    ⟨p.1, m.displays ++ [Display.sleeping], true, Option.none, m.send⟩
  else
    let s := schedulerStep now e c p.1
    ⟨s.1, m.displays, false, s.2, m.send⟩

/-! Helper lemmas shared by the claim theorems. -/

theorem constrain_lower (x lo hi : ℚ) (h : lo ≤ hi) : lo ≤ constrain x lo hi := by
  unfold constrain
  split
  · exact le_refl lo
  · split
    · exact h
    · linarith [not_lt.mp (by assumption : ¬x < lo)]

theorem constrain_upper (x lo hi : ℚ) (h : lo ≤ hi) : constrain x lo hi ≤ hi := by
  unfold constrain
  split
  · exact h
  · split
    · exact le_refl hi
    · linarith [not_lt.mp (by assumption : ¬hi < x)]

theorem readVoltage_mean_nonneg (adc : ℕ) (s : SensorBuf)
    (h0 : adc ≠ 0) (h4 : adc ≠ 4095)
    (hb0 : 0 ≤ s.b0) (hb1 : 0 ≤ s.b1) (hb2 : 0 ≤ s.b2) :
    0 ≤ (readVoltage adc s).1 := by
  have hv : (0 : ℚ) ≤ (adc : ℚ) * (33/10 / 4095) := by positivity
  unfold readVoltage writeBuf
  rw [if_neg (by simp [h0, h4])]
  split <;> simp only <;> exact div_nonneg (by linarith) (by norm_num)

theorem handleSelect_menuItem (now : ℕ) (e : Env) (c : Calib) (st : SysState) :
    (handleSelect now e c st).st.currentMenuItem = st.currentMenuItem := by
  unfold handleSelect
  split <;> simp [wakeLCD]

theorem handleSelect_lastRead (now : ℕ) (e : Env) (c : Calib) (st : SysState) :
    (handleSelect now e c st).st.lastRead = st.lastRead := by
  unfold handleSelect
  split <;> simp [wakeLCD]

theorem handleMenu_lastRead (now : ℕ) (btn : Button) (e : Env) (c : Calib)
    (st : SysState) :
    (handleMenu now btn e c st).st.lastRead = st.lastRead := by
  unfold handleMenu
  split
  · rfl
  · cases btn <;> simp [wakeLCD, handleSelect_lastRead]

theorem dimBacklight_powerSave (now : ℕ) (st : SysState) :
    (dimBacklight now st).powerSaveMode = st.powerSaveMode := by
  unfold dimBacklight
  split <;> rfl

theorem dimBacklight_lastRead (now : ℕ) (st : SysState) :
    (dimBacklight now st).lastRead = st.lastRead := by
  unfold dimBacklight
  split <;> rfl

theorem managePower_powerSave (now : ℕ) (st : SysState) :
    (managePower now st).1.powerSaveMode = st.powerSaveMode := by
  unfold managePower
  split
  · split <;> exact dimBacklight_powerSave now st
  · rfl

theorem managePower_lastRead (now : ℕ) (st : SysState) :
    (managePower now st).1.lastRead = st.lastRead := by
  unfold managePower
  split
  · split <;> exact dimBacklight_lastRead now st
  · rfl

theorem managePower_sleep_iff (now : ℕ) (st : SysState) :
    (managePower now st).2 = true ↔
      (st.powerSaveMode = true ∧ 300000 < now - st.lastRead) := by
  unfold managePower
  rw [dimBacklight_lastRead]
  split
  · split <;> simp_all
  · simp_all

theorem schedulerStep_none_of_powerSave (now : ℕ) (e : Env) (c : Calib)
    (st : SysState) (h : st.powerSaveMode = true) :
    (schedulerStep now e c st).2 = Option.none := by
  unfold schedulerStep
  split
  · simp [h]
  · rfl

theorem schedulerStep_auto_iff (now : ℕ) (e : Env) (c : Calib) (st : SysState) :
    (schedulerStep now e c st).2.isSome = true ↔
      (15000 ≤ now - st.lastRead ∧ st.powerSaveMode = false) := by
  unfold schedulerStep
  split
  · rename_i h15
    by_cases hps : st.powerSaveMode = true
    · simp [hps, h15]
    · rw [Bool.not_eq_true] at hps
      simp [hps, h15]
  · rename_i h15
    simp [h15]

theorem schedulerStep_lastRead (now : ℕ) (e : Env) (c : Calib) (st : SysState) :
    (schedulerStep now e c st).1.lastRead
      = if 15000 ≤ now - st.lastRead then now else st.lastRead := by
  unfold schedulerStep
  split
  · by_cases hps : st.powerSaveMode = true <;> simp [hps]
  · rfl

theorem loopStep_eq_sleep (now : ℕ) (btn : Button) (e : Env) (c : Calib)
    (st : SysState)
    (h : (managePower now (handleMenu now btn e c st).st).2 = true) :
    loopStep now btn e c st
      = ⟨(managePower now (handleMenu now btn e c st).st).1,
         (handleMenu now btn e c st).displays ++ [Display.sleeping], true,
         Option.none, (handleMenu now btn e c st).send⟩ := by
  simp only [loopStep]
  rw [if_pos h]

theorem loopStep_eq_run (now : ℕ) (btn : Button) (e : Env) (c : Calib)
    (st : SysState)
    (h : (managePower now (handleMenu now btn e c st).st).2 = false) :
    loopStep now btn e c st
      = ⟨(schedulerStep now e c (managePower now (handleMenu now btn e c st).st).1).1,
         (handleMenu now btn e c st).displays, false,
         (schedulerStep now e c (managePower now (handleMenu now btn e c st).st).1).2,
         (handleMenu now btn e c st).send⟩ := by
  simp only [loopStep]
  rw [if_neg (by simp [h])]

/-! The claims. -/

/-- C4: an ADC sample at either rail (0 or 4095) makes the channel
return the invalid sentinel with the rolling buffer and cursor
untouched; a sample strictly between the rails pushes the converted
voltage `adc * (3.3 / 4095)` into the buffer. -/
theorem c4_rail_fault_leaves_buffer (adc : ℕ) (s : SensorBuf) :
    ((adc = 0 ∨ adc = 4095) → readVoltage adc s = (-1, s)) ∧
    (0 < adc → adc < 4095 →
      (readVoltage adc s).2 = writeBuf s ((adc : ℚ) * (33/10 / 4095))) := by
  constructor
  · intro h
    unfold readVoltage
    rw [if_pos h]
  · intro h1 h2
    unfold readVoltage
    rw [if_neg (by omega)]

/-- Witness for C4 at the concrete rails 0 and 4095 and the interior
sample 2000. -/
theorem c4_rail_fault_leaves_buffer_witness :
    readVoltage 0 SensorBuf.init = (-1, SensorBuf.init) ∧
    readVoltage 4095 SensorBuf.init = (-1, SensorBuf.init) ∧
    (readVoltage 2000 SensorBuf.init).2
      = writeBuf SensorBuf.init ((2000 : ℚ) * (33/10 / 4095)) :=
  ⟨(c4_rail_fault_leaves_buffer 0 SensorBuf.init).1 (Or.inl rfl),
   (c4_rail_fault_leaves_buffer 4095 SensorBuf.init).1 (Or.inr rfl),
   (c4_rail_fault_leaves_buffer 2000 SensorBuf.init).2 (by decide) (by decide)⟩

/-- C5: the EC reading is invalid (negative sentinel) exactly when the
TDS reading is, and equals twice the TDS value whenever TDS is valid. -/
theorem c5_ec_twice_tds (adc : ℕ) (tRaw : ℚ) (c : Calib) (s : SensorBuf) :
    ((getEC adc tRaw c s).1 < 0 ↔ (getTDS adc tRaw c s).1 < 0) ∧
    (0 ≤ (getTDS adc tRaw c s).1 →
      (getEC adc tRaw c s).1 = 2 * (getTDS adc tRaw c s).1) := by
  have hEC : (getEC adc tRaw c s).1
      = if (getTDS adc tRaw c s).1 < 0 then (-1 : ℚ)
        else (getTDS adc tRaw c s).1 * 2 := by
    simp only [getEC]
    split <;> rfl
  rw [hEC]
  by_cases h : (getTDS adc tRaw c s).1 < 0
  · rw [if_pos h]
    exact ⟨⟨fun _ => h, fun _ => by norm_num⟩, fun h0 => absurd h (not_lt.mpr h0)⟩
  · rw [if_neg h]
    constructor
    · constructor
      · intro habs
        nlinarith [not_lt.mp h]
      · intro habs
        exact absurd habs h
    · intro _
      ring

/-- Witness for C5: a mid-range TDS sample at 20 degrees C obeys the
doubling law. -/
theorem c5_ec_twice_tds_witness :
    (getEC 2000 20 defaultCalib SensorBuf.init).1
      = 2 * (getTDS 2000 20 defaultCalib SensorBuf.init).1 :=
  (c5_ec_twice_tds 2000 20 defaultCalib SensorBuf.init).2 (by
    norm_num [getTDS, getTemp, readVoltage, writeBuf, defaultCalib, SensorBuf.init])

/-- C6: pushing three valid samples into the zero-initialised rolling
buffer reports the warm-up-biased means `v1/3`, `(v1+v2)/3` and
`(v1+v2+v3)/3`, where `vi` is the converted voltage of the i-th ADC
sample. -/
theorem c6_warmup_means (a1 a2 a3 : ℕ)
    (h1l : 0 < a1) (h1r : a1 < 4095) (h2l : 0 < a2) (h2r : a2 < 4095)
    (h3l : 0 < a3) (h3r : a3 < 4095) :
    (readVoltage a1 SensorBuf.init).1 = ((a1 : ℚ) * (33/10 / 4095)) / 3 ∧
    (readVoltage a2 (readVoltage a1 SensorBuf.init).2).1
      = ((a1 : ℚ) * (33/10 / 4095) + (a2 : ℚ) * (33/10 / 4095)) / 3 ∧
    (readVoltage a3 (readVoltage a2 (readVoltage a1 SensorBuf.init).2).2).1
      = ((a1 : ℚ) * (33/10 / 4095) + (a2 : ℚ) * (33/10 / 4095)
         + (a3 : ℚ) * (33/10 / 4095)) / 3 := by
  have n1 : ¬(a1 = 0 ∨ a1 = 4095) := by omega
  have n2 : ¬(a2 = 0 ∨ a2 = 4095) := by omega
  have n3 : ¬(a3 = 0 ∨ a3 = 4095) := by omega
  refine ⟨?_, ?_, ?_⟩ <;>
    simp [readVoltage, writeBuf, SensorBuf.init, if_neg n1, if_neg n2, if_neg n3]

/-- Witness for C6 at the end-to-end scenario input 2047 of the spec. -/
theorem c6_warmup_means_witness :
    (readVoltage 2047 SensorBuf.init).1 = ((2047 : ℚ) * (33/10 / 4095)) / 3 :=
  (c6_warmup_means 2047 2047 2047 (by decide) (by decide) (by decide) (by decide)
    (by decide) (by decide)).1

/-- C7: on a valid sample over a buffer of nonnegative slots, the pH
reading equals the calibration line plus the `0.0198 (T - 25)`
compensation clamped to `[0, 14]`, so it lies in `[0, 14]`; the
turbidity reading lies in `[0, 150]`. -/
theorem c7_ph_turbidity_clamped (adc : ℕ) (tRaw : ℚ) (c : Calib) (s : SensorBuf)
    (h0 : 0 < adc) (h4 : adc < 4095)
    (hb0 : 0 ≤ s.b0) (hb1 : 0 ≤ s.b1) (hb2 : 0 ≤ s.b2) :
    (getPH adc tRaw c s).1
      = constrain (c.ph_slope * (readVoltage adc s).1 + c.ph_intercept
                   + 198/10000 * (getTemp tRaw - 25)) 0 14 ∧
    0 ≤ (getPH adc tRaw c s).1 ∧ (getPH adc tRaw c s).1 ≤ 14 ∧
    0 ≤ (getTurbidity adc c s).1 ∧ (getTurbidity adc c s).1 ≤ 150 := by
  have hm : 0 ≤ (readVoltage adc s).1 :=
    readVoltage_mean_nonneg adc s (by omega) (by omega) hb0 hb1 hb2
  have hph : (getPH adc tRaw c s).1
      = constrain (c.ph_slope * (readVoltage adc s).1 + c.ph_intercept
                   + 198/10000 * (getTemp tRaw - 25)) 0 14 := by
    simp only [getPH]
    rw [if_neg (not_lt.mpr hm)]
  have htb : (getTurbidity adc c s).1
      = constrain (c.turb_slope * (readVoltage adc s).1 + c.turb_intercept) 0 150 := by
    simp only [getTurbidity]
    rw [if_neg (not_lt.mpr hm)]
  refine ⟨hph, ?_, ?_, ?_, ?_⟩
  · rw [hph]
    exact constrain_lower _ _ _ (by norm_num)
  · rw [hph]
    exact constrain_upper _ _ _ (by norm_num)
  · rw [htb]
    exact constrain_lower _ _ _ (by norm_num)
  · rw [htb]
    exact constrain_upper _ _ _ (by norm_num)

/-- Witness for C7 at the spec scenario: ADC 2047, 25 degrees C,
default calibration, zeroed buffer. -/
theorem c7_ph_turbidity_clamped_witness :
    0 ≤ (getPH 2047 25 defaultCalib SensorBuf.init).1 ∧
    (getPH 2047 25 defaultCalib SensorBuf.init).1 ≤ 14 ∧
    0 ≤ (getTurbidity 2047 defaultCalib SensorBuf.init).1 ∧
    (getTurbidity 2047 defaultCalib SensorBuf.init).1 ≤ 150 :=
  let h := c7_ph_turbidity_clamped 2047 25 defaultCalib SensorBuf.init
    (by decide) (by decide) (le_refl 0) (le_refl 0) (le_refl 0)
  ⟨h.2.1, h.2.2.1, h.2.2.2.1, h.2.2.2.2⟩

/-- C8: menu navigation wraps circularly (`Up` from 0 gives 6, `Down`
from 6 gives 0) and the selected index stays below the item count 7
under `Up`, `Down`, and every other accepted button event. -/
theorem c8_menu_wraps_circularly :
    menuUp 0 = 6 ∧ menuDown 6 = 0 ∧
    (∀ i, i < menuItemsCount → menuUp i < menuItemsCount) ∧
    (∀ i, i < menuItemsCount → menuDown i < menuItemsCount) ∧
    (∀ now btn e c st, st.currentMenuItem < menuItemsCount →
      (handleMenu now btn e c st).st.currentMenuItem < menuItemsCount) := by
  refine ⟨by decide, by decide, ?_, ?_, ?_⟩
  · intro i h
    unfold menuUp menuItemsCount at *
    split <;> omega
  · intro i h
    unfold menuDown menuItemsCount at *
    split <;> omega
  · intro now btn e c st h
    unfold handleMenu
    split
    · exact h
    · cases btn
      case up =>
        simp only [wakeLCD]
        unfold menuUp menuItemsCount at *
        split <;> omega
      case down =>
        simp only [wakeLCD]
        unfold menuDown menuItemsCount at *
        split <;> omega
      case select =>
        rw [handleSelect_menuItem]
        exact h
      case back =>
        simp only [wakeLCD]
        exact h
      case idle =>
        exact h

/-- Witness for C8: one in-range index through `Up` and one full
`handleMenu` step on the boot state. -/
theorem c8_menu_wraps_circularly_witness :
    menuUp 3 < menuItemsCount ∧
    (handleMenu 300 Button.down ⟨true, true, 1, 1, 1, 25, true⟩ defaultCalib
      SysState.init).st.currentMenuItem < menuItemsCount :=
  ⟨c8_menu_wraps_circularly.2.2.1 3 (by decide),
   c8_menu_wraps_circularly.2.2.2.2 300 Button.down ⟨true, true, 1, 1, 1, 25, true⟩
     defaultCalib SysState.init (by decide)⟩

/-- C9: after an accepted Select on menu item 6, the LCD write sequence
contains `Data sent!`, whatever the environment did (Wi-Fi down,
Firebase not ready, invalid sensor values, failed transport write). -/
theorem c9_data_sent_shown_unconditionally (now : ℕ) (e : Env) (c : Calib)
    (st : SysState) (hdb : 200 ≤ now - st.lastButtonPress)
    (hi : st.currentMenuItem = 6) :
    Display.dataSent ∈ (handleMenu now Button.select e c st).displays := by
  unfold handleMenu
  rw [if_neg (by omega)]
  simp [handleSelect, hi]

/-- Witness for C9: a send on a disconnected environment still shows
`Data sent!`. -/
theorem c9_data_sent_shown_unconditionally_witness :
    Display.dataSent ∈ (handleMenu 500 Button.select
      ⟨false, false, 0, 0, 0, -127, false⟩ defaultCalib
      { SysState.init with currentMenuItem := 6 }).displays :=
  c9_data_sent_shown_unconditionally 500 ⟨false, false, 0, 0, 0, -127, false⟩
    defaultCalib { SysState.init with currentMenuItem := 6 } (by decide) rfl

/-- C10: an accepted Select on item 6 invokes the send path regardless
of `powerSaveMode`, while the automatic scheduler never sends when
power-save is enabled. -/
theorem c10_manual_send_bypasses_power_save (now : ℕ) (btn : Button) (e : Env)
    (c : Calib) (st : SysState) :
    (200 ≤ now - st.lastButtonPress → st.currentMenuItem = 6 →
      ((handleMenu now Button.select e c st).send).isSome = true) ∧
    ((handleMenu now btn e c st).st.powerSaveMode = true →
      (loopStep now btn e c st).auto = Option.none) := by
  constructor
  · intro hdb hi
    unfold handleMenu
    rw [if_neg (by omega)]
    simp [handleSelect, hi]
  · intro hps
    by_cases h : (managePower now (handleMenu now btn e c st).st).2 = true
    · rw [loopStep_eq_sleep now btn e c st h]
    · rw [Bool.not_eq_true] at h
      rw [loopStep_eq_run now btn e c st h]
      exact schedulerStep_none_of_powerSave now e c _
        (by rw [managePower_powerSave]; exact hps)

/-- Witness for C10: with power-save on, the manual path at item 6
attempts a send while the scheduler stays quiet after 20 s. -/
theorem c10_manual_send_bypasses_power_save_witness :
    ((handleMenu 20000 Button.select ⟨true, true, 1, 1, 1, 25, false⟩ defaultCalib
      { SysState.init with currentMenuItem := 6, powerSaveMode := true }).send).isSome
        = true ∧
    (loopStep 20000 Button.idle ⟨true, true, 1, 1, 1, 25, false⟩ defaultCalib
      { SysState.init with currentMenuItem := 6, powerSaveMode := true }).auto
        = Option.none :=
  ⟨(c10_manual_send_bypasses_power_save 20000 Button.select
      ⟨true, true, 1, 1, 1, 25, false⟩ defaultCalib
      { SysState.init with currentMenuItem := 6, powerSaveMode := true }).1
      (by decide) rfl,
   (c10_manual_send_bypasses_power_save 20000 Button.idle
      ⟨true, true, 1, 1, 1, 25, false⟩ defaultCalib
      { SysState.init with currentMenuItem := 6, powerSaveMode := true }).2
      (by decide)⟩

theorem loopStep_deepSleep (now : ℕ) (btn : Button) (e : Env) (c : Calib)
    (st : SysState) :
    (loopStep now btn e c st).deepSleep
      = (managePower now (handleMenu now btn e c st).st).2 := by
  by_cases h : (managePower now (handleMenu now btn e c st).st).2 = true
  · rw [loopStep_eq_sleep now btn e c st h, h]
  · rw [Bool.not_eq_true] at h
    rw [loopStep_eq_run now btn e c st h, h]

/-- C1: a loop tick enters deep sleep exactly when power-save is
enabled (as left by the menu handling of this tick) and more than 300 s elapsed
since the shared `lastRead` timestamp; with power-save off it is never
entered, whatever the elapsed time. -/
theorem c1_deep_sleep_iff_power_save (now : ℕ) (btn : Button) (e : Env) (c : Calib)
    (st : SysState) :
    (loopStep now btn e c st).deepSleep = true ↔
      ((handleMenu now btn e c st).st.powerSaveMode = true ∧
        300000 < now - st.lastRead) := by
  rw [loopStep_deepSleep, managePower_sleep_iff, handleMenu_lastRead]

/-- C2 as stated is false: the claim counts manual sends into the 15 s
cadence, but `lastRead` is only ever refreshed by the scheduler branch
of `loop()`. Here a manual send completes at t = 20 s, `lastRead` stays
at 15 s, and the automatic send still fires at t = 30 s even though only
10 s have passed since the manual attempt. -/
theorem c2_counterexample :
    (loopStep 20000 Button.select ⟨false, false, 1, 1, 1, 0, false⟩ defaultCalib
      { SysState.init with currentMenuItem := 6, lastRead := 15000 }).manual.isSome
        = true ∧
    (loopStep 20000 Button.select ⟨false, false, 1, 1, 1, 0, false⟩ defaultCalib
      { SysState.init with currentMenuItem := 6, lastRead := 15000 }).st.lastRead
        = 15000 ∧
    (loopStep 30000 Button.idle ⟨false, false, 1, 1, 1, 0, false⟩ defaultCalib
      (loopStep 20000 Button.select ⟨false, false, 1, 1, 1, 0, false⟩ defaultCalib
        { SysState.init with currentMenuItem := 6, lastRead := 15000 }).st).auto.isSome
        = true ∧
    30000 - 20000 < 15000 := by
  refine ⟨?_, ?_, ?_, by decide⟩ <;> rfl

/-- C2 amended: an automatic upload attempt occurs exactly when at
least 15 s have elapsed since the last scheduler-tick refresh of
`lastRead` (manual sends do not touch this timestamp) and power-save is
not enabled; the timestamp is refreshed on every 15 s tick even under
power-save, with no upload; and it is the same `lastRead` the deep-sleep
trigger reads, so the check is false whenever power-save is enabled,
regardless of elapsed time. -/
theorem c2_amended_scheduler (now : ℕ) (btn : Button) (e : Env) (c : Calib)
    (st : SysState) :
    ((loopStep now btn e c st).auto.isSome = true ↔
      ((loopStep now btn e c st).deepSleep = false ∧
        15000 ≤ now - st.lastRead ∧
        (handleMenu now btn e c st).st.powerSaveMode = false)) ∧
    ((handleMenu now btn e c st).st.powerSaveMode = true →
      (loopStep now btn e c st).auto = Option.none) ∧
    ((loopStep now btn e c st).deepSleep = false → 15000 ≤ now - st.lastRead →
      (loopStep now btn e c st).st.lastRead = now) ∧
    ((loopStep now btn e c st).deepSleep = false → now - st.lastRead < 15000 →
      (loopStep now btn e c st).st.lastRead = st.lastRead) := by
  have hlr : (managePower now (handleMenu now btn e c st).st).1.lastRead
      = st.lastRead := by
    rw [managePower_lastRead, handleMenu_lastRead]
  have hps : (managePower now (handleMenu now btn e c st).st).1.powerSaveMode
      = (handleMenu now btn e c st).st.powerSaveMode :=
    managePower_powerSave now (handleMenu now btn e c st).st
  by_cases h : (managePower now (handleMenu now btn e c st).st).2 = true
  · rw [loopStep_eq_sleep now btn e c st h]
    exact ⟨by simp, fun _ => rfl, fun habs _ => by simp at habs,
      fun habs _ => by simp at habs⟩
  · rw [Bool.not_eq_true] at h
    rw [loopStep_eq_run now btn e c st h]
    refine ⟨?_, ?_, ?_, ?_⟩
    · show (schedulerStep now e c _).2.isSome = true ↔ _
      rw [schedulerStep_auto_iff, hlr, hps]
      simp
    · intro hpt
      exact schedulerStep_none_of_powerSave now e c _ (by rw [hps]; exact hpt)
    · intro _ h15
      show (schedulerStep now e c _).1.lastRead = now
      rw [schedulerStep_lastRead, hlr, if_pos h15]
    · intro _ h15
      show (schedulerStep now e c _).1.lastRead = st.lastRead
      rw [schedulerStep_lastRead, hlr, if_neg (by omega)]

/-- Witness for C2 amended: from boot with power-save off, the 20 s
tick refreshes `lastRead`; with power-save on, the scheduler stays
silent. -/
theorem c2_amended_scheduler_witness :
    (loopStep 20000 Button.idle ⟨false, false, 1, 1, 1, 0, false⟩ defaultCalib
      SysState.init).st.lastRead = 20000 ∧
    (loopStep 20000 Button.idle ⟨false, false, 1, 1, 1, 0, false⟩ defaultCalib
      { SysState.init with powerSaveMode := true }).auto = Option.none :=
  ⟨(c2_amended_scheduler 20000 Button.idle ⟨false, false, 1, 1, 1, 0, false⟩
      defaultCalib SysState.init).2.2.1 rfl (by decide),
   (c2_amended_scheduler 20000 Button.idle ⟨false, false, 1, 1, 1, 0, false⟩
      defaultCalib { SysState.init with powerSaveMode := true }).2.1 rfl⟩

/-- A connected, healthy environment whose probe reports -5 degrees C:
a legitimate sub-zero reading, not one of the DS18B20 fault sentinels. -/
def coldEnv : Env :=
  { wifiConnected := true, firebaseReady := true, phAdc := 2000,
    turbAdc := 2000, tdsAdc := 2000, tempRaw := -5, writeOk := true }

/-- C3 as stated is false on its last conjunct: with the probe at
-5 degrees C (not a fault sentinel) and every sensor reading valid
(pH, turbidity, TDS and EC all nonnegative), `sendToFirebase` still
skips the upload, because the guard also rejects any negative
temperature value. -/
theorem c3_counterexample :
    (sendToFirebase coldEnv defaultCalib Buffers.init).1
      = SendOutcome.skippedInvalid ∧
    0 ≤ (getPH 2000 (-5) defaultCalib SensorBuf.init).1 ∧
    0 ≤ (getTurbidity 2000 defaultCalib SensorBuf.init).1 ∧
    0 ≤ (getTDS 2000 (-5) defaultCalib SensorBuf.init).1 ∧
    0 ≤ (getEC 2000 (-5) defaultCalib SensorBuf.init).1 := by
  refine ⟨?_, ?_, ?_, ?_, ?_⟩ <;>
    norm_num [sendToFirebase, coldEnv, getPH, getTurbidity, getTDS, getEC,
      getTemp, readVoltage, writeBuf, constrain, defaultCalib, Buffers.init,
      SensorBuf.init]

/-- C3 amended: a probe fault sentinel resolves to the fixed default
25.0 degrees C and leaves the pH and TDS readings exactly as a healthy
25-degree probe would, so it never invalidates them nor causes a skip;
however, the upload payload is skipped exactly when a sensor reading is
invalid **or the sanitized temperature value is negative** (a genuine
sub-zero reading also blocks the upload). -/
theorem c3_amended_temp_fault (e : Env) (c : Calib) (b : Buffers) (adc : ℕ)
    (tRaw : ℚ) (s : SensorBuf) :
    ((tRaw = -127 ∨ tRaw = 85) →
      (getTemp tRaw = 25 ∧ getPH adc tRaw c s = getPH adc 25 c s ∧
       getTDS adc tRaw c s = getTDS adc 25 c s)) ∧
    (e.wifiConnected = true → e.firebaseReady = true →
      ((sendToFirebase e c b).1 = SendOutcome.skippedInvalid ↔
        (getTemp e.tempRaw < 0 ∨ (getPH e.phAdc e.tempRaw c b.ph).1 < 0 ∨
         (getTurbidity e.turbAdc c b.turb).1 < 0 ∨
         (getTDS e.tdsAdc e.tempRaw c b.tds).1 < 0))) := by
  constructor
  · intro h
    have h25 : getTemp tRaw = 25 := by
      unfold getTemp
      rw [if_pos h]
    have h25b : getTemp (25 : ℚ) = 25 := by
      unfold getTemp
      rw [if_neg (by norm_num)]
    refine ⟨h25, ?_, ?_⟩
    · unfold getPH
      rw [h25, h25b]
    · unfold getTDS
      rw [h25, h25b]
  · intro hw hf
    have hec : ∀ t : ℚ, ((if t < 0 then (-1 : ℚ) else t * 2) < 0 ↔ t < 0) := by
      intro t
      by_cases ht : t < 0
      · rw [if_pos ht]
        exact ⟨fun _ => ht, fun _ => by norm_num⟩
      · rw [if_neg ht]
        constructor
        · intro habs
          nlinarith [not_lt.mp ht]
        · intro habs
          exact absurd habs ht
    simp only [sendToFirebase]
    rw [if_neg (by simp [hw, hf])]
    by_cases hcond : (getTemp e.tempRaw < 0 ∨ (getPH e.phAdc e.tempRaw c b.ph).1 < 0 ∨
        (getTurbidity e.turbAdc c b.turb).1 < 0 ∨
        (getTDS e.tdsAdc e.tempRaw c b.tds).1 < 0 ∨
        (if (getTDS e.tdsAdc e.tempRaw c b.tds).1 < 0 then (-1 : ℚ)
         else (getTDS e.tdsAdc e.tempRaw c b.tds).1 * 2) < 0)
    · rw [if_pos hcond]
      constructor
      · intro _
        rcases hcond with h1 | h2 | h3 | h4 | h5
        · exact Or.inl h1
        · exact Or.inr (Or.inl h2)
        · exact Or.inr (Or.inr (Or.inl h3))
        · exact Or.inr (Or.inr (Or.inr h4))
        · exact Or.inr (Or.inr (Or.inr ((hec _).mp h5)))
      · intro _
        rfl
    · rw [if_neg hcond]
      push_neg at hcond
      constructor
      · intro habs
        split at habs <;> simp at habs
      · intro hr
        rcases hr with h1 | h2 | h3 | h4
        · exact absurd h1 (not_lt.mpr hcond.1)
        · exact absurd h2 (not_lt.mpr hcond.2.1)
        · exact absurd h3 (not_lt.mpr hcond.2.2.1)
        · exact absurd h4 (not_lt.mpr hcond.2.2.2.1)

/-- Witness for C3 amended: the sentinel -127 resolves to 25 degrees C
with the same pH reading as a 25-degree probe, and on a connected,
healthy environment the upload is not skipped for invalid values. -/
theorem c3_amended_temp_fault_witness :
    getTemp (-127) = 25 ∧
    getPH 2000 (-127) defaultCalib SensorBuf.init
      = getPH 2000 25 defaultCalib SensorBuf.init ∧
    ¬((sendToFirebase ⟨true, true, 2000, 2000, 2000, -127, true⟩ defaultCalib
        Buffers.init).1 = SendOutcome.skippedInvalid) := by
  have h := c3_amended_temp_fault ⟨true, true, 2000, 2000, 2000, -127, true⟩
    defaultCalib Buffers.init 2000 (-127) SensorBuf.init
  refine ⟨(h.1 (Or.inl rfl)).1, (h.1 (Or.inl rfl)).2.1, ?_⟩
  rw [h.2 rfl rfl]
  push_neg
  norm_num [getPH, getTurbidity, getTDS, getTemp, readVoltage, writeBuf,
    constrain, defaultCalib, Buffers.init, SensorBuf.init]

end Aquasense
